import Mathlib

/-!
Verification of the fabric-rs session store, session driver, and Anthropic
stream decoder (src/session.rs, src/provider/anthropic.rs), as a shallow
embedding.  Serialized YAML records are modelled structurally (a record is
its role tag plus the optional `pattern` and `content` fields); the session
store directory is modelled as a list of files, each a stem, an extension
and a list of records.  File handles and buffered writers are modelled by
their net effect on that directory; where the Rust code discards a buffered
writer whose flush-on-drop can fail, the model carries a `writeFails` fault
flag for the underlying device (payloads are assumed smaller than the 8 KiB
buffer of `BufWriter`, so the only underlying write is the flush at the end
of the call).
-/

set_option autoImplicit false

namespace Fabric

/-- `ChatEntry` from src/session.rs: a tagged enum with variants
`Query {pattern: Option<String>, content: String}`, `Reply {content: String}`
and a `#[serde(other)]` catch-all `Unknown`. -/
inductive ChatEntry where
  | Query (pattern : Option String) (content : String)
  | Reply (content : String)
  | Unknown
deriving DecidableEq

/-- One serialized YAML record as written/read by serde: the `role` tag plus
the optional `pattern` and `content` fields.  (`pattern` is skipped when
`None`; a missing `content` field is `none`.) -/
structure RawRecord where
  role : String
  pattern : Option String
  content : Option String
deriving DecidableEq

/-- Serialization of one entry (`#[serde(tag="role", rename_all="lowercase")]`
with `rename="user"` for `Query` and `rename="assistant"` for `Reply`; the
unit variant `Unknown` serializes as its lowercased name). -/
def serializeEntry : ChatEntry → RawRecord
  | .Query p c => ⟨"user", p, some c⟩
  | .Reply c => ⟨"assistant", none, some c⟩
  | .Unknown => ⟨"unknown", none, none⟩

/-- Deserialization of one record: tag `user` (alias `query`) builds `Query`,
tag `assistant` (alias `reply`) builds `Reply` (each requiring a `content`
field), and any other tag is absorbed by `#[serde(other)]` as `Unknown`. -/
def parseEntry (r : RawRecord) : Except String ChatEntry :=
  if r.role == "user" || r.role == "query" then
    match r.content with
    | some c => .ok (.Query r.pattern c)
    | none => .error "missing field content"
  else if r.role == "assistant" || r.role == "reply" then
    match r.content with
    | some c => .ok (.Reply c)
    | none => .error "missing field content"
  else .ok .Unknown

/-- Deserializing a nonempty sequence of records, one after the other:
every record must parse, else the whole load errors. -/
def parseRecords : List RawRecord → Except String (List ChatEntry)
  | [] => .ok []
  | r :: rest =>
    match parseEntry r with
    | .error e => .error e
    | .ok x => (parseRecords rest).map (fun xs => x :: xs)

/-- Deserializing the whole file (`serde_yml::from_reader` into
`Vec<ChatEntry>`): an EMPTY document is read as null / end of stream, not
as a sequence, so deserializing it into a `Vec` fails with a load error;
a nonempty document is the concatenated sequence of records, each of which
must parse. -/
def parseEntries : List RawRecord → Except String (List ChatEntry)
  | [] => .error "invalid type: unit value, expected a sequence"
  | r :: rest => parseRecords (r :: rest)

/-- One file in the session store directory: filename stem, extension and
the sequence of serialized records it holds. -/
structure FsFile where
  stem : String
  ext : String
  records : List RawRecord
deriving DecidableEq

/-- The ambient file-system state: the store directory's files, plus a fault
flag saying whether the underlying device rejects writes (so that a
`BufWriter` flush at the end of a call fails). -/
structure Env where
  fs : List FsFile
  writeFails : Bool
deriving DecidableEq

/-- Look up the `.yml` file for a session name in the store directory. -/
def findYml (fs : List FsFile) (name : String) : Option FsFile :=
  fs.find? (fun f => f.stem == name && f.ext == "yml")

/-- Replace (or create) the `.yml` file for `name` with the given records. -/
def setYml : List FsFile → String → List RawRecord → List FsFile
  | [], name, recs => [⟨name, "yml", recs⟩]
  | f :: rest, name, recs =>
    if f.stem == name && f.ext == "yml" then ⟨name, "yml", recs⟩ :: rest
    else f :: setYml rest name recs

/-- `ChatSession` from src/session.rs: `Stored {file, path, messages}` (the
open handle and path are identified with the session name, the stem of the
backing `.yml` file) or `Dummy {messages}`. -/
inductive ChatSession where
  | Stored (path : String) (messages : List ChatEntry)
  | Dummy (messages : List ChatEntry)
deriving DecidableEq

def ChatSession.messages : ChatSession → List ChatEntry
  | .Stored _ ms => ms
  | .Dummy ms => ms

def ChatSession.is_dummy : ChatSession → Bool
  | .Dummy _ => true
  | _ => false

/-- `SessionManager::list_sessions`: enumerate the store directory, keep
files with extension `yml`, and return their stems. -/
def list_sessions (env : Env) : List String :=
  (env.fs.filter (fun f => f.ext == "yml")).map (fun f => f.stem)

/-- `SessionManager::load_session`: open `name.yml` for read+append (errors
if absent) and deserialize the full ordered entry list (errors if the file
is an empty document or any record is unparsable; unknown role tags parse
as `Unknown`, not as an error). -/
def load_session (name : String) (env : Env) : Except String ChatSession :=
  match findYml env.fs name with
  | none => .error "No such file"
  | some f => (parseEntries f.records).map (fun ms => .Stored name ms)

/-- `SessionManager::load_or_create`: try `load_session`; on any failure
(missing file or unparsable content) run `File::create(&path)` — which
creates or truncates the file to empty — and return a fresh empty Stored
session. -/
def load_or_create (name : String) (env : Env) : ChatSession × Env :=
  match load_session name env with
  | .ok s => (s, env)
  | .error _ => (.Stored name [], { env with fs := setYml env.fs name [] })

/-- `SessionManager::get_session`: `None` gives the ephemeral dummy session,
`Some name` delegates to `load_or_create`. -/
def get_session (name : Option String) (env : Env) : ChatSession × Env :=
  match name with
  | some n => load_or_create n env
  | none => (.Dummy [], env)

/-- `ChatSession::append`: for `Stored`, serialize `[&entry]` into a
`BufWriter` over the open append handle — the bytes reach the file when the
writer flushes on drop at the end of the match arm, and an error of that
flush is discarded by `BufWriter`'s `Drop` impl, so on a failing device the
call still returns `Ok` with the file unchanged; in all cases the entry is
then pushed onto the in-memory list and `Ok(())` is returned.  For `Dummy`
no I/O occurs. -/
def ChatSession.append (sess : ChatSession) (entry : ChatEntry) (env : Env) :
    ChatSession × Env × Except String Unit :=
  match sess with
  | .Stored path ms =>
    let recs := ((findYml env.fs path).map (fun f => f.records)).getD []
    let fs' := if env.writeFails then env.fs
               else setYml env.fs path (recs ++ [serializeEntry entry])
    (.Stored path (ms ++ [entry]), { env with fs := fs' }, .ok ())
  | .Dummy ms => (.Dummy (ms ++ [entry]), env, .ok ())

/-- `ChatSession::prune`: for `Stored`, drain the oldest
`len - min(len, limit)` entries from the in-memory list and return them;
then the code opens the path with `File::open` — a READ-ONLY handle — and
serializes the remaining list into a `BufWriter` over it, whose
flush-on-drop fails (`EBADF`) and is discarded, so the backing file is left
unchanged.  `File::open` itself errors if the path does not exist (the
in-memory list is already drained at that point).  For `Dummy`, returns an
empty list. -/
def ChatSession.prune (sess : ChatSession) (limit : Nat) (env : Env) :
    ChatSession × Env × Except String (List ChatEntry) :=
  match sess with
  | .Stored path ms =>
    let len := min ms.length limit
    let start := ms.length - len
    let discard := ms.take start
    let kept := ms.drop start
    match findYml env.fs path with
    | none => (.Stored path kept, env, .error "No such file")
    | some _ => (.Stored path kept, env, .ok discard)
  | .Dummy ms => (.Dummy ms, env, .ok [])

/-- Fold of `ChatSession::append` over a list of entries, one call at a
time (each call's result feeds the next). -/
def appendAll (sess : ChatSession) (entries : List ChatEntry) (env : Env) :
    ChatSession × Env :=
  match entries with
  | [] => (sess, env)
  | e :: rest =>
    let r := sess.append e env
    appendAll r.1 rest r.2.1

/-! ## Session driver (`SessionWithClient` in src/session.rs)

The provider client behind the `Client` trait object is abstracted by the
value its call returns: the non-streaming call yields a reply body (the
metadata is only logged) and the streaming call yields the ordered sequence
of items the channel will deliver.  The output sink is a string the driver
appends to. -/

/-- Result of one driver call: the mutated session (`&mut self.inner`), the
file-system state, the output sink contents, and the call's `Result`. -/
structure DriveResult where
  session : ChatSession
  env : Env
  out : String
  result : Except String Unit

/-- `SessionWithClient::send_message`: append a `Query` entry tagged with
the pattern name; call the provider (its failure propagates with `?`, after
the query was already appended); on success write the body plus a newline to
the sink and append a `Reply` entry with the body. -/
def send_message_drv (sess : ChatSession) (patName text : String)
    (clientResult : Except String String) (env : Env) (out : String) :
    DriveResult :=
  let r1 := sess.append (.Query (some patName) text) env
  match r1.2.2 with
  | .error e => ⟨r1.1, r1.2.1, out, .error e⟩
  | .ok _ =>
    match clientResult with
    | .error e => ⟨r1.1, r1.2.1, out, .error e⟩
    | .ok body =>
      let r2 := r1.1.append (.Reply body) r1.2.1
      ⟨r2.1, r2.2.1, out ++ body ++ "\n", r2.2.2⟩

/-- The driver's receive loop, `while let Some(Ok(msg)) = rx.recv().await`:
each `Ok` chunk is written (and flushed) to the sink and, when accumulation
is on (`acc = some _`), pushed onto the accumulator; the loop stops at the
first non-`Ok` item or when the channel closes. -/
def recvLoop : List (Except String String) → String → Option String →
    String × Option String
  | .ok msg :: rest, out, acc =>
    recvLoop rest (out ++ msg) (acc.map (fun c => c ++ msg))
  | _, out, acc => (out, acc)

/-- `SessionWithClient::stream_message`: append the `Query` entry; start the
stream (failure propagates, query retained); set the accumulator to
`Some("")` unless the session is a dummy; run the receive loop; afterwards,
if the accumulator is `Some(content)` — which for a Stored session it always
is, whether the loop ended by channel close or by an error item — append a
`Reply` entry holding the accumulated content. -/
def stream_message_drv (sess : ChatSession) (patName text : String)
    (streamItems : Except String (List (Except String String)))
    (env : Env) (out : String) : DriveResult :=
  let r1 := sess.append (.Query (some patName) text) env
  match r1.2.2 with
  | .error e => ⟨r1.1, r1.2.1, out, .error e⟩
  | .ok _ =>
    match streamItems with
    | .error e => ⟨r1.1, r1.2.1, out, .error e⟩
    | .ok items =>
      let acc0 : Option String := if r1.1.is_dummy then none else some ""
      let lp := recvLoop items out acc0
      match lp.2 with
      | some content =>
        let r2 := r1.1.append (.Reply content) r1.2.1
        ⟨r2.1, r2.2.1, lp.1, r2.2.2⟩
      | none => ⟨r1.1, r1.2.1, lp.1, .ok ()⟩

/-! ## Stream decoder (src/provider/anthropic.rs)

A parsed `serde_json::Value` is modelled by the results of the access paths
the decoder uses: `data["message"]` (the metadata envelope, with
`["content"].as_array()` and each block's `["text"].as_str()` inside it) and
`data["delta"]["text"].as_str()`.  Indexing a `Value` at a missing key gives
`Null`, so these accesses are total and the `Option`s model `as_str` /
`as_array` returning `None`. -/

/-- The value at `data["message"]`: an opaque identity `tag`, plus the
result of `["content"].as_array()` where each element is that block's
`["text"].as_str()`. -/
structure MetaRep where
  tag : String
  contentBlocks : Option (List (Option String))
deriving DecidableEq

/-- A successfully parsed event payload, as the decoder reads it. -/
structure ParsedValue where
  messageMeta : MetaRep
  deltaText : Option String
deriving DecidableEq

/-- An event's `data` string: either not parsable as JSON, or the parsed
value. -/
inductive Payload where
  | invalid
  | valid (v : ParsedValue)
deriving DecidableEq

/-- One item yielded by the `EventSource`: a (re)opened connection, a
message event carrying a tag and payload, or a transport-level error. -/
inductive SseEvent where
  | opened
  | message (event : String) (data : Payload)
  | transErr (e : String)
deriving DecidableEq

/-- `process_event`: dispatch on the event tag.  `message_start` parses the
payload (`?` on failure) and collects the `text` of each block under
`message.content` (absent array means no chunks); `content_block_delta`
parses the payload (`?` on failure) and yields one chunk holding
`delta.text` (or `""` when absent); `content_block_stop` yields the `"\n"`
separator; `message_delta`, `content_block_start`, `ping` and unknown tags
yield nothing. -/
def process_event (ev : String) (data : Payload) : Except String (List String) :=
  if ev == "message_start" then
    match data with
    | .invalid => .error "invalid json"
    | .valid v => .ok ((v.messageMeta.contentBlocks.getD []).filterMap id)
  else if ev == "content_block_delta" then
    match data with
    | .invalid => .error "invalid json"
    | .valid v => .ok [v.deltaText.getD ""]
  else if ev == "content_block_stop" then .ok ["\n"]
  else if ev == "message_delta" then .ok []
  else if ev == "content_block_start" || ev == "ping" then .ok []
  else .ok []

/-- `consume_event_stream`: read events until the source is exhausted or
closed.  A reopened connection is only logged; `message_stop` closes the
source (after `es.close()` the source yields nothing, so the remaining wire
events are never read); any other message event goes through
`process_event` — `Ok` chunks are each sent on the channel, an `Err` is
sent on the channel and the source is closed; a transport error is logged
and closes the source WITHOUT sending anything on the channel.  The value
is the ordered list of items sent on the channel. -/
def consume_event_stream : List SseEvent → List (Except String String)
  | [] => []
  | .opened :: rest => consume_event_stream rest
  | .message ev data :: rest =>
    if ev == "message_stop" then []
    else
      match process_event ev data with
      | .ok ds => ds.map .ok ++ consume_event_stream rest
      | .error e => [.error e]
  | .transErr _ :: _ => []

/-- `AnthropicClient::start_event_stream`: read events until the
`message_start` envelope arrives; `Open` is logged; a transport error
propagates with `?`; any other message before `message_start` is a protocol
error; at `message_start`, parse the envelope (`?` on failure), take
`envelope["message"]` as the metadata, and hand back the still-open source
(the remaining events). -/
def start_event_stream : List SseEvent → Except String (MetaRep × List SseEvent)
  | [] => .error "Stream closed before start"
  | .opened :: rest => start_event_stream rest
  | .message ev data :: rest =>
    if ev == "message_start" then
      match data with
      | .invalid => .error "invalid json"
      | .valid v => .ok (v.messageMeta, rest)
    else .error "Message content before start"
  | .transErr e :: _ => .error e

/-- `AnthropicClient::stream_message`, decoder side: run
`start_event_stream` to obtain the metadata — which is placed in the
returned `StreamResponse` before the consumer task has sent any chunk — and
then the spawned `consume_event_stream` over the remaining events produces
the channel's items. -/
def stream_pipeline (events : List SseEvent) :
    Except String (MetaRep × List (Except String String)) :=
  match start_event_stream events with
  | .error e => .error e
  | .ok (meta, rest) => .ok (meta, consume_event_stream rest)

/-- Concatenation of the chunk strings accumulated by the driver loop. -/
def strConcat : List String → String
  | [] => ""
  | s :: rest => s ++ strConcat rest

/-- Whether an `Except` value is an error. -/
def exErr {α : Type} : Except String α → Bool
  | .error _ => true
  | .ok _ => false

/-- Whether handling this event makes `consume_event_stream` close the
source: `message_stop`, a transport error, or a decode error. -/
def eventCloses : SseEvent → Bool
  | .opened => false
  | .transErr _ => true
  | .message ev data => ev == "message_stop" || exErr (process_event ev data)

/-- The `Ok` chunks a run of non-closing events sends on the channel. -/
def okOut : List SseEvent → List (Except String String)
  | [] => []
  | .message ev data :: rest =>
    (match process_event ev data with
     | .ok ds => ds.map Except.ok
     | .error _ => []) ++ okOut rest
  | _ :: rest => okOut rest

/-! ## Helper lemmas -/

theorem parse_serialize (e : ChatEntry) : parseEntry (serializeEntry e) = .ok e := by
  cases e <;> rfl

theorem parseRecords_serialize (l : List ChatEntry) :
    parseRecords (l.map serializeEntry) = .ok l := by
  induction l with
  | nil => rfl
  | cons e rest ih => simp [parseRecords, parse_serialize, ih, Except.map]

theorem parseRecords_serialize_cons (e0 : ChatEntry) (rest : List ChatEntry) :
    parseRecords (serializeEntry e0 :: rest.map serializeEntry)
      = .ok (e0 :: rest) := by
  have h := parseRecords_serialize (e0 :: rest)
  rwa [List.map_cons] at h

theorem load_session_singleton (name : String) (recs : List RawRecord)
    (b : Bool) :
    load_session name ⟨[⟨name, "yml", recs⟩], b⟩
      = (parseEntries recs).map (fun ms => ChatSession.Stored name ms) := by
  rw [load_session, show findYml [⟨name, "yml", recs⟩] name
      = some ⟨name, "yml", recs⟩ from by simp [findYml, List.find?]]

theorem findYml_setYml_self (fs : List FsFile) (name : String)
    (recs : List RawRecord) :
    findYml (setYml fs name recs) name = some ⟨name, "yml", recs⟩ := by
  induction fs with
  | nil => simp [setYml, findYml, List.find?]
  | cons f rest ih =>
    by_cases h : (f.stem == name && f.ext == "yml") = true
    · simp [setYml, h, findYml, List.find?]
    · have h' : (f.stem == name && f.ext == "yml") = false := by simpa using h
      rw [setYml, if_neg h, findYml, List.find?, h']
      rw [findYml] at ih
      exact ih

theorem append_stored_env (name : String) (ms : List ChatEntry) (e : ChatEntry)
    (recs : List RawRecord) :
    (ChatSession.Stored name ms).append e ⟨[⟨name, "yml", recs⟩], false⟩
      = (.Stored name (ms ++ [e]),
         ⟨[⟨name, "yml", recs ++ [serializeEntry e]⟩], false⟩, .ok ()) := by
  simp [ChatSession.append, findYml, setYml, List.find?]

theorem appendAll_stored (name : String) (entries : List ChatEntry) :
    ∀ ms : List ChatEntry,
    appendAll (.Stored name ms) entries ⟨[⟨name, "yml", ms.map serializeEntry⟩], false⟩
      = (.Stored name (ms ++ entries),
         ⟨[⟨name, "yml", (ms ++ entries).map serializeEntry⟩], false⟩) := by
  induction entries with
  | nil => intro ms; simp [appendAll]
  | cons e rest ih =>
    intro ms
    rw [appendAll, append_stored_env name ms e (ms.map serializeEntry)]
    have hmap : ms.map serializeEntry ++ [serializeEntry e]
        = (ms ++ [e]).map serializeEntry := by simp
    rw [show ((ChatSession.Stored name (ms ++ [e]),
          (⟨[⟨name, "yml", ms.map serializeEntry ++ [serializeEntry e]⟩],
            false⟩ : Env), Except.ok ()).1 : ChatSession)
        = ChatSession.Stored name (ms ++ [e]) from rfl]
    rw [show ((ChatSession.Stored name (ms ++ [e]),
          (⟨[⟨name, "yml", ms.map serializeEntry ++ [serializeEntry e]⟩],
            false⟩ : Env), Except.ok ()).2.1 : Env)
        = ⟨[⟨name, "yml", ms.map serializeEntry ++ [serializeEntry e]⟩], false⟩
        from rfl]
    rw [hmap, ih (ms ++ [e])]
    simp

theorem recvLoop_ok_error (e : String) (tail : List (Except String String)) :
    ∀ (msgs : List String) (out acc : String),
    recvLoop (msgs.map .ok ++ .error e :: tail) out (some acc)
      = (out ++ strConcat msgs, some (acc ++ strConcat msgs)) := by
  intro msgs
  induction msgs with
  | nil =>
    intro out acc
    rw [List.map_nil, List.nil_append, strConcat, String.append_empty,
      String.append_empty]
    rfl
  | cons m rest ih =>
    intro out acc
    rw [List.map_cons, List.cons_append, recvLoop]
    rw [show (some acc).map (fun c => c ++ m) = some (acc ++ m) from rfl]
    rw [ih (out ++ m) (acc ++ m), strConcat]
    rw [String.append_assoc, String.append_assoc]

theorem consume_benign_append (front rest : List SseEvent)
    (h : ∀ ev ∈ front, eventCloses ev = false) :
    consume_event_stream (front ++ rest)
      = okOut front ++ consume_event_stream rest := by
  induction front with
  | nil => simp [okOut]
  | cons x xs ih =>
    have hx := h x (List.mem_cons_self x xs)
    have hxs : ∀ ev ∈ xs, eventCloses ev = false :=
      fun ev hm => h ev (List.mem_cons_of_mem x hm)
    cases x with
    | opened => simpa [consume_event_stream, okOut] using ih hxs
    | transErr err => simp [eventCloses] at hx
    | message ev data =>
      rw [eventCloses] at hx
      rw [Bool.or_eq_false_iff] at hx
      obtain ⟨h1, h2⟩ := hx
      cases hp : process_event ev data with
      | error e2 => rw [hp, exErr] at h2; exact absurd h2 (by simp)
      | ok ds =>
        rw [List.cons_append, consume_event_stream, h1]
        simp only [Bool.false_eq_true, if_false]
        rw [hp, okOut, hp]
        rw [ih hxs, List.append_assoc]

/-! ## Claims -/

/-- C3 counterexample: with zero appends the freshly created backing file
is an empty document, and `load_session` fails on it — an empty document
deserializes as null, not as a sequence — so reloading does not yield the
(empty) appended sequence. -/
theorem empty_session_reload_fails_cex :
    load_session "s" (appendAll (.Stored "s" []) [] ⟨[⟨"s", "yml", []⟩], false⟩).2
      = .error "invalid type: unit value, expected a sequence" := rfl

/-- C3 amended: appending any NONEMPTY finite sequence of entries one at a
time to a Stored session and reloading it with `load_session` yields the
same ordered sequence, and any record whose role tag is unrecognized
deserializes as `Unknown` rather than causing a load error; for the empty
sequence the backing file is an empty document and `load_session` returns a
load error instead. -/
theorem append_reload_roundtrip (name : String) (e0 : ChatEntry)
    (rest : List ChatEntry) :
    load_session name
        (appendAll (.Stored name []) (e0 :: rest) ⟨[⟨name, "yml", []⟩], false⟩).2
      = .ok (.Stored name (e0 :: rest))
    ∧ ∀ r : RawRecord,
        (r.role == "user" || r.role == "query"
          || r.role == "assistant" || r.role == "reply") = false →
        parseEntry r = .ok .Unknown := by
  constructor
  · have h := appendAll_stored name (e0 :: rest) []
    rw [List.map_nil] at h
    rw [h]
    show load_session name
        ⟨[⟨name, "yml", ([] ++ e0 :: rest).map serializeEntry⟩], false⟩
      = .ok (.Stored name (e0 :: rest))
    rw [List.nil_append, load_session_singleton, List.map_cons, parseEntries,
      parseRecords_serialize_cons]
    rfl
  · intro r hr
    rw [Bool.or_eq_false_iff, Bool.or_eq_false_iff, Bool.or_eq_false_iff] at hr
    obtain ⟨⟨⟨h1, h2⟩, h3⟩, h4⟩ := hr
    have c1 : ¬ ((r.role == "user" || r.role == "query") = true) := by
      rw [h1, h2]; decide
    have c2 : ¬ ((r.role == "assistant" || r.role == "reply") = true) := by
      rw [h3, h4]; decide
    rw [parseEntry, if_neg c1, if_neg c2]

/-- Witness for C3 at a concrete entry sequence and a concrete
unknown-tagged record. -/
theorem append_reload_roundtrip_witness :
    load_session "s"
        (appendAll (.Stored "s" [])
          [.Query (some "summarize") "hello", .Reply "world", .Unknown]
          ⟨[⟨"s", "yml", []⟩], false⟩).2
      = .ok (.Stored "s" [.Query (some "summarize") "hello", .Reply "world", .Unknown])
    ∧ parseEntry ⟨"cow", none, some "moo"⟩ = .ok .Unknown :=
  ⟨(append_reload_roundtrip "s" (.Query (some "summarize") "hello")
      [.Reply "world", .Unknown]).1,
   (append_reload_roundtrip "s" (.Query (some "summarize") "hello")
      [.Reply "world", .Unknown]).2
     ⟨"cow", none, some "moo"⟩ (by decide)⟩

/-- C2 (code bug): on a Stored session with 2 entries, `prune 1` keeps the
most recent entry in memory and returns the oldest, but the backing file is
NOT rewritten — `File::open` yields a read-only handle and the failed flush
is discarded — so reloading still yields both old entries, not the retained
one. -/
theorem prune_file_not_rewritten :
    (ChatSession.Stored "s" [.Query none "a", .Reply "b"]).prune 1
        ⟨[⟨"s", "yml", [⟨"user", none, some "a"⟩, ⟨"assistant", none, some "b"⟩]⟩], false⟩
      = (.Stored "s" [.Reply "b"],
         ⟨[⟨"s", "yml", [⟨"user", none, some "a"⟩, ⟨"assistant", none, some "b"⟩]⟩], false⟩,
         .ok [.Query none "a"])
    ∧ load_session "s"
        ⟨[⟨"s", "yml", [⟨"user", none, some "a"⟩, ⟨"assistant", none, some "b"⟩]⟩], false⟩
      = .ok (.Stored "s" [.Query none "a", .Reply "b"])
    ∧ ¬ load_session "s"
        ⟨[⟨"s", "yml", [⟨"user", none, some "a"⟩, ⟨"assistant", none, some "b"⟩]⟩], false⟩
      = .ok (.Stored "s" [.Reply "b"]) := by
  refine ⟨rfl, rfl, ?_⟩
  intro hcontra
  rw [show load_session "s"
      ⟨[⟨"s", "yml", [⟨"user", none, some "a"⟩, ⟨"assistant", none, some "b"⟩]⟩], false⟩
      = .ok (.Stored "s" [.Query none "a", .Reply "b"]) from rfl] at hcontra
  exact absurd (Except.ok.inj hcontra) (by simp)

/-- C9 (confirmed): `prune limit` on a Stored session whose backing file
exists and whose entry count is at most `limit` returns an empty discarded
list and leaves both the in-memory list and the file system unchanged. -/
theorem prune_noop_small (path : String) (ms : List ChatEntry) (limit : Nat)
    (env : Env) (f : FsFile) (hfind : findYml env.fs path = some f)
    (hlen : ms.length ≤ limit) :
    (ChatSession.Stored path ms).prune limit env = (.Stored path ms, env, .ok []) := by
  rw [ChatSession.prune]
  rw [Nat.min_eq_left hlen, Nat.sub_self, List.take_zero, List.drop_zero, hfind]

/-- Witness for C9 on a one-entry session pruned to limit 3. -/
theorem prune_noop_small_witness :
    (ChatSession.Stored "s" [.Reply "b"]).prune 3
        ⟨[⟨"s", "yml", [⟨"assistant", none, some "b"⟩]⟩], false⟩
      = (.Stored "s" [.Reply "b"],
         ⟨[⟨"s", "yml", [⟨"assistant", none, some "b"⟩]⟩], false⟩, .ok []) :=
  prune_noop_small "s" [.Reply "b"] 3
    ⟨[⟨"s", "yml", [⟨"assistant", none, some "b"⟩]⟩], false⟩
    ⟨"s", "yml", [⟨"assistant", none, some "b"⟩]⟩ rfl (by decide)

/-- C10 (confirmed): when the backing file exists but its content is
unparsable, `load_or_create` returns a fresh empty Stored session and
truncates the file to empty (`File::create`), destroying the old content. -/
theorem load_or_create_truncates_unparsable (name : String) (env : Env)
    (f : FsFile) (e : String) (hfind : findYml env.fs name = some f)
    (hbad : parseEntries f.records = .error e) :
    load_or_create name env
      = (.Stored name [], { env with fs := setYml env.fs name [] })
    ∧ findYml (setYml env.fs name []) name = some ⟨name, "yml", []⟩ := by
  refine ⟨?_, findYml_setYml_self env.fs name []⟩
  simp [load_or_create, load_session, hfind, hbad, Except.map]

/-- Witness for C10 on a file holding a `user` record with no `content`
field, which fails deserialization. -/
theorem load_or_create_truncates_unparsable_witness :
    load_or_create "s" ⟨[⟨"s", "yml", [⟨"user", none, none⟩]⟩], false⟩
      = (.Stored "s" [],
         { (⟨[⟨"s", "yml", [⟨"user", none, none⟩]⟩], false⟩ : Env) with
             fs := setYml [⟨"s", "yml", [⟨"user", none, none⟩]⟩] "s" [] })
    ∧ findYml (setYml [⟨"s", "yml", [⟨"user", none, none⟩]⟩] "s" []) "s"
      = some ⟨"s", "yml", []⟩ :=
  load_or_create_truncates_unparsable "s"
    ⟨[⟨"s", "yml", [⟨"user", none, none⟩]⟩], false⟩
    ⟨"s", "yml", [⟨"user", none, none⟩]⟩ "missing field content" rfl rfl

/-- C6 (confirmed): a failing provider call in the non-streaming send makes
the operation abort with that error, with the Query entry already recorded
and no Reply entry appended and nothing written to the sink. -/
theorem send_provider_failure_keeps_query (sess : ChatSession)
    (patName text e : String) (env : Env) (out : String) :
    (send_message_drv sess patName text (.error e) env out).result = .error e
    ∧ (send_message_drv sess patName text (.error e) env out).session.messages
      = sess.messages ++ [.Query (some patName) text]
    ∧ (send_message_drv sess patName text (.error e) env out).out = out := by
  cases sess <;> exact ⟨rfl, rfl, rfl⟩

/-- C7 (code bug): on a device whose write fails at the flush, `append` on a
Stored session still returns `Ok`, adds the entry to the in-memory list, and
leaves the backing file without the entry — the durable write and the
in-memory update are not atomic, because `BufWriter`'s flush-on-drop error
is discarded instead of propagated. -/
theorem append_flush_error_swallowed :
    ((ChatSession.Stored "s" []).append (.Reply "hello")
        ⟨[⟨"s", "yml", []⟩], true⟩).2.2 = .ok ()
    ∧ ((ChatSession.Stored "s" []).append (.Reply "hello")
        ⟨[⟨"s", "yml", []⟩], true⟩).1.messages = [.Reply "hello"]
    ∧ ((ChatSession.Stored "s" []).append (.Reply "hello")
        ⟨[⟨"s", "yml", []⟩], true⟩).2.1 = ⟨[⟨"s", "yml", []⟩], true⟩ :=
  ⟨rfl, rfl, rfl⟩

/-- C8 (confirmed): any sequence of appends to an ephemeral (Dummy) session
only grows the in-memory list; the file-system state is untouched, so
`list_sessions` returns the same list before and after. -/
theorem dummy_append_no_fs_effect (ms entries : List ChatEntry) (env : Env) :
    (appendAll (.Dummy ms) entries env).2 = env
    ∧ list_sessions (appendAll (.Dummy ms) entries env).2 = list_sessions env
    ∧ (appendAll (.Dummy ms) entries env).1 = .Dummy (ms ++ entries) := by
  induction entries generalizing ms with
  | nil => simp [appendAll]
  | cons e rest ih => simpa [appendAll, ChatSession.append] using ih (ms ++ [e])

/-- C1 counterexample: on a Stored session, a stream that delivers one good
chunk and then a terminal error does NOT leave the entry list ending with
the Query entry — a Reply entry holding the partial text "par" is appended,
because the accumulator is still `Some` when the receive loop exits on the
error. -/
theorem stream_error_partial_reply_cex :
    (stream_message_drv (.Stored "s" []) "p" "q"
        (.ok [.ok "par", .error "boom", .ok "late"])
        ⟨[⟨"s", "yml", []⟩], false⟩ "").session.messages
      = [.Query (some "p") "q", .Reply "par"]
    ∧ (stream_message_drv (.Stored "s" []) "p" "q"
        (.ok [.ok "par", .error "boom", .ok "late"])
        ⟨[⟨"s", "yml", []⟩], false⟩ "").out = "par" :=
  ⟨rfl, rfl⟩

/-- C1 amended: on a Stored session, when the channel yields a terminal
error mid-stream, the driver stops reading further chunks (items after the
error never reach the sink) but it DOES append a Reply entry containing the
partial accumulated text, so the entry list ends with that partial Reply
after the Query, not with the Query entry. -/
theorem stream_error_appends_partial_reply (path : String)
    (ms : List ChatEntry) (patName text e out : String) (env : Env)
    (okMsgs : List String) (tail : List (Except String String)) :
    (stream_message_drv (.Stored path ms) patName text
        (.ok (okMsgs.map .ok ++ .error e :: tail)) env out).session.messages
      = ms ++ [.Query (some patName) text, .Reply (strConcat okMsgs)]
    ∧ (stream_message_drv (.Stored path ms) patName text
        (.ok (okMsgs.map .ok ++ .error e :: tail)) env out).out
      = out ++ strConcat okMsgs := by
  constructor
  · simp [stream_message_drv, ChatSession.append, ChatSession.is_dummy,
      recvLoop_ok_error, String.empty_append, ChatSession.messages]
  · simp [stream_message_drv, ChatSession.append, ChatSession.is_dummy,
      recvLoop_ok_error, String.empty_append]

/-- C4 counterexample: an event sequence that does contain a
content-block-delta event with an unparsable payload, but after a
message-stop event: the decoder closed the source at message-stop, the bad
delta is never read, and the channel carries no decode-error item at all. -/
theorem delta_after_stop_no_error_cex :
    consume_event_stream
        [.message "message_stop" .invalid, .message "content_block_delta" .invalid]
      = [] := rfl

/-- C4 amended: whenever the decoder actually reaches a content-block-delta
event with an unparsable payload (no earlier event closed the source), it
emits a decode-error item on the channel for that event and the channel
output ends there — no further chunks, Ok or otherwise, follow. -/
theorem delta_decode_error_closes_stream (front tail : List SseEvent)
    (h : ∀ ev ∈ front, eventCloses ev = false) :
    consume_event_stream (front ++ .message "content_block_delta" .invalid :: tail)
      = okOut front ++ [.error "invalid json"] := by
  rw [consume_benign_append front _ h]
  rfl

/-- Witness for C4's amended theorem: one good delta, then the bad one; the
channel carries the good chunk followed by the decode error, and the later
content-block-stop event contributes nothing. -/
theorem delta_decode_error_closes_stream_witness :
    consume_event_stream
        [.message "content_block_delta" (.valid ⟨⟨"m", none⟩, some "Hi"⟩),
         .message "content_block_delta" .invalid,
         .message "content_block_stop" .invalid]
      = [.ok "Hi", .error "invalid json"] :=
  delta_decode_error_closes_stream
    [.message "content_block_delta" (.valid ⟨⟨"m", none⟩, some "Hi"⟩)]
    [.message "content_block_stop" .invalid] (by decide)

/-- C5 (confirmed): decoding `message_start` carrying metadata `M`, a
`content_block_delta` with text "Hi", `content_block_stop`, `message_stop`
surfaces metadata `M` (returned in the `StreamResponse` before the consumer
task sends any chunk) and puts exactly `Ok "Hi"` then the `Ok "\n"`
separator, in that order, on the channel. -/
theorem stream_exact_sequence (M M2 : MetaRep) (dt : Option String)
    (p3 p4 : Payload) :
    stream_pipeline
        [.message "message_start" (.valid ⟨M, dt⟩),
         .message "content_block_delta" (.valid ⟨M2, some "Hi"⟩),
         .message "content_block_stop" p3,
         .message "message_stop" p4]
      = .ok (M, [.ok "Hi", .ok "\n"]) := rfl

end Fabric
